import Mathlib

/-!
Shallow embedding of the two command-line image generators of the
`lifelog-agent` repository (`src/mascot-concepts/generate.py`, Component A,
and `src/mascot-concepts/generate_v2.py`, Component B).

Each script is a single linear module body.  We model it as a pure function
from its inputs (environment variables, `sys.argv`, and the vendor's
response, which is external input) to the trace of observable effects the
script performs: the outbound request, at most one file write, and the
printed messages.  An uncaught Python exception is modelled by an `error`
field alongside the effects performed before the raise.
-/

namespace Lifelog

/-! ### Component A: data model of the SDK response (`generate.py`) -/

/-- `part.inline_data` payload: carries the raw image bytes (`.data`). -/
structure InlineData where
  data : List Nat
  deriving DecidableEq, Repr

/-- One part of a candidate's content.  `inline_data` is `none` when the
part has no inline data attribute or it is `None` (the Python code guards
with `hasattr(part, 'inline_data') and part.inline_data`). -/
structure Part where
  inline_data : Option InlineData
  deriving DecidableEq, Repr

/-- `candidate.content`: holds the list of parts. -/
structure Content where
  parts : List Part
  deriving DecidableEq, Repr

/-- One candidate of the SDK response. -/
structure Candidate where
  content : Content
  deriving DecidableEq, Repr

/-- The SDK response: a list of candidates. -/
structure Response where
  candidates : List Candidate
  deriving DecidableEq, Repr

/-! ### Component B: data model of the HTTP response (`generate_v2.py`) -/

/-- One entry of the `predictions` list: `{"bytesBase64Encoded": <text>}`. -/
structure Prediction where
  bytesBase64Encoded : String
  deriving DecidableEq, Repr

/-- The parsed JSON body of a 200 response: `predictions` is `none` when the
key is absent (`"predictions" in data` is false). -/
structure RespData where
  predictions : Option (List Prediction)
  deriving DecidableEq, Repr

/-- The `requests` response object: status code, the JSON parse of the body
(`none` when `response.json()` would raise), and the raw body text. -/
structure HttpResponse where
  status_code : Nat
  jsonParse : Option RespData
  text : String
  deriving DecidableEq, Repr

/-! ### The request payload of Component B -/

structure OutputOptions where
  mimeType : String
  deriving DecidableEq, Repr

structure Parameters where
  sampleCount : Nat
  aspectRatio : String
  outputOptions : OutputOptions
  deriving DecidableEq, Repr

structure Instance where
  prompt : String
  deriving DecidableEq, Repr

/-- The JSON request body built by `generate_v2.py`. -/
structure Payload where
  instances : List Instance
  parameters : Parameters
  deriving DecidableEq, Repr

/-! ### Observable effects -/

/-- The observable effects either script performs, in order. -/
inductive Effect where
  /-- `genai.configure(api_key=...)` (Component A). -/
  | configure (key : Option String)
  /-- `model.generate_content([prompt], generation_config=...)` with the
  requested response mime type (Component A). -/
  | genCall (prompt : String) (responseMimeType : String)
  /-- `requests.post(url, json=payload, headers=...)` (Component B). -/
  | post (url : String) (headers : List (String × String)) (body : Payload)
  /-- `open(output, 'wb')` + `f.write(bytes)`: one file write. -/
  | fileWrite (path : String) (bytes : List Nat)
  /-- `print` of a plain string. -/
  | printMsg (s : String)
  /-- `print(response)` — Component A echoes the raw response object. -/
  | printResp (r : Response)
  /-- `print(data)` — Component B echoes the parsed JSON body. -/
  | printData (d : RespData)
  deriving DecidableEq, Repr

/-- Result of running a script: the effects performed, and the uncaught
exception (by name) if the run raised. -/
structure Outcome where
  effects : List Effect
  error : Option String
  deriving DecidableEq, Repr

/-- `True` exactly for a `fileWrite` effect. -/
def isWrite : Effect → Bool
  | .fileWrite _ _ => true
  | _ => false

/-- Number of file writes in a trace. -/
def writeCount (t : List Effect) : Nat := (t.filter isWrite).length

/-- `True` exactly for a `post` effect. -/
def isPost : Effect → Bool
  | .post _ _ _ => true
  | _ => false

/-- Number of outbound HTTP posts in a trace. -/
def postCount (t : List Effect) : Nat := (t.filter isPost).length

/-- A printed diagnostic: any `print` effect. -/
def isPrint : Effect → Bool
  | .printMsg _ => true
  | .printResp _ => true
  | .printData _ => true
  | _ => false

/-! ### Argument handling (identical lines in both scripts) -/

/-- `generate.py` line 9: `prompt = sys.argv[1] if len(sys.argv) > 1 else
"Cute mascot character"`.  `argv` includes the program name at index 0. -/
def promptOfA (argv : List String) : String :=
  match argv.get? 1 with
  | some s => s
  | none => "Cute mascot character"

/-- `generate.py` line 10: `output = sys.argv[2] if len(sys.argv) > 2 else
"output.png"`. -/
def outputOfA (argv : List String) : String :=
  match argv.get? 2 with
  | some s => s
  | none => "output.png"

/-- `generate_v2.py` line 9 (same text as Component A's line 9). -/
def promptOfB (argv : List String) : String :=
  match argv.get? 1 with
  | some s => s
  | none => "Cute mascot character"

/-- `generate_v2.py` line 10 (same text as Component A's line 10). -/
def outputOfB (argv : List String) : String :=
  match argv.get? 2 with
  | some s => s
  | none => "output.png"

/-! ### Component A: module body of `generate.py` -/

/-- Python `x or y` on optional strings: `x` wins iff it is set and
non-empty (truthy), matching
`os.environ.get("GOOGLE_API_KEY") or os.environ.get("GEMINI_API_KEY")`. -/
def pyOr (x y : Option String) : Option String :=
  match x with
  | some s => if s = "" then y else some s
  | none => y

/-- The `for part in response.candidates[0].content.parts:` loop (lines
23–28): take the first part whose `inline_data` is truthy, write its raw
bytes, print the confirmation, and `break`. -/
def scanPartsA (output : String) : List Part → List Effect
  | [] => []
  | p :: rest =>
    match p.inline_data with
    | some d => [.fileWrite output d.data, .printMsg ("Saved to " ++ output)]
    | none => scanPartsA output rest

/-- Lines 22–31 of `generate.py`: `if response.candidates and
response.candidates[0].content.parts:` runs the part scan, `else` prints
"No image generated" and echoes the response.  Note the `else` belongs to
the `if`, not to the `for` loop. -/
def saveA (output : String) (response : Response) : List Effect :=
  match response.candidates with
  | [] => [.printMsg "No image generated", .printResp response]
  | c :: _ =>
    if c.content.parts = [] then
      [.printMsg "No image generated", .printResp response]
    else
      scanPartsA output c.content.parts

/-- The whole module body of `generate.py`, as a function of the two
environment variables, `sys.argv`, and the vendor response returned by the
`generate_content` call.  Network and SDK failures are external and not
modelled; the decoding logic itself cannot raise. -/
def runA (googleKey geminiKey : Option String) (argv : List String)
    (response : Response) : Outcome :=
  let prompt := promptOfA argv
  let output := outputOfA argv
  { effects := .configure (pyOr googleKey geminiKey)
      :: .genCall prompt "image/png"
      :: saveA output response,
    error := none }

/-! ### Base64 (the `base64.b64decode` step of `generate_v2.py` line 29)

`b64decodeCore` models standard base64 decoding (RFC 4648, the alphabet and
padding used by Python's `base64.b64decode`) on alphabet-conforming input:
groups of four characters yield three bytes, with `=`-padding at the end;
malformed input yields `none` (Python raises `binascii.Error`). -/

/-- The standard base64 alphabet. -/
def b64Alphabet : List Char :=
  "ABCDEFGHIJKLMNOPQRSTUVWXYZabcdefghijklmnopqrstuvwxyz0123456789+/".data

/-- The character encoding the six-bit value `n`. -/
def encodeChar (n : Nat) : Char := b64Alphabet.getD n 'A'

/-- Index of `c` in a list, counting from `i`. -/
def idxFrom (c : Char) : List Char → Nat → Option Nat
  | [], _ => none
  | a :: rest, i => if a = c then some i else idxFrom c rest (i + 1)

/-- The six-bit value of a base64 character, `none` if not in the alphabet. -/
def decodeChar (c : Char) : Option Nat := idxFrom c b64Alphabet 0

/-- Decode a base64 character sequence into bytes; `none` on malformed
input. -/
def b64decodeCore : List Char → Option (List Nat)
  | [] => some []
  | c1 :: c2 :: c3 :: c4 :: rest =>
    (decodeChar c1).bind fun n1 =>
    (decodeChar c2).bind fun n2 =>
    if c3 = '=' then
      if c4 = '=' ∧ rest = [] then some [n1 * 4 + n2 / 16] else none
    else
      (decodeChar c3).bind fun n3 =>
      if c4 = '=' then
        if rest = [] then some [n1 * 4 + n2 / 16, n2 % 16 * 16 + n3 / 4]
        else none
      else
        (decodeChar c4).bind fun n4 =>
        (b64decodeCore rest).bind fun tail =>
        some ((n1 * 4 + n2 / 16) :: (n2 % 16 * 16 + n3 / 4)
          :: (n3 % 4 * 64 + n4) :: tail)
  | _ => none

/-- `base64.b64decode` applied to the JSON string field. -/
def b64decode (s : String) : Option (List Nat) := b64decodeCore s.data

/-- Modelled from the spec: standard base64 *encoding* of a byte sequence
(`base64.b64encode`), which the repository itself does not contain; the
spec's round-trip property ("encoding arbitrary binary data B to base64 and
decoding it back") refers to it. -/
def b64encode : List Nat → List Char
  | [] => []
  | [b1] => [encodeChar (b1 / 4), encodeChar (b1 % 4 * 16), '=', '=']
  | [b1, b2] => [encodeChar (b1 / 4), encodeChar (b1 % 4 * 16 + b2 / 16),
      encodeChar (b2 % 16 * 4), '=']
  | b1 :: b2 :: b3 :: rest =>
    encodeChar (b1 / 4) :: encodeChar (b1 % 4 * 16 + b2 / 16)
      :: encodeChar (b2 % 16 * 4 + b3 / 64) :: encodeChar (b3 % 64)
      :: b64encode rest

/-! ### Component B: module body of `generate_v2.py` -/

/-- Line 13: the endpoint with the credential interpolated as the `key`
query parameter.  A missing environment variable is Python `None`, which an
f-string renders as the text `"None"` — no check is performed. -/
def urlB (apiKey : Option String) : String :=
  "https://generativelanguage.googleapis.com/v1beta/models/" ++
    "imagen-4.0-generate-001:predict?key=" ++
    (match apiKey with
     | some k => k
     | none => "None")

/-- Lines 15–22: the request payload. -/
def payloadB (prompt : String) : Payload :=
  { instances := [{ prompt := prompt }],
    parameters :=
      { sampleCount := 1,
        aspectRatio := "1:1",
        outputOptions := { mimeType := "image/png" } } }

/-- The headers passed to `requests.post` (line 24). -/
def headersB : List (String × String) := [("Content-Type", "application/json")]

/-- Lines 26–38: the response handling.  On 200, parse the JSON body (an
unparseable body raises); if `predictions` is present and non-empty, decode
the first prediction's base64 field (invalid base64 raises) and write it;
otherwise print the no-image diagnostic and echo the parsed body.  On any
other status, print the status code and the raw body text. -/
def handleB (output : String) (resp : HttpResponse) : Outcome :=
  if resp.status_code = 200 then
    match resp.jsonParse with
    | none => { effects := [], error := some "json.JSONDecodeError" }
    | some data =>
      match data.predictions with
      | some (p :: _) =>
        match b64decode p.bytesBase64Encoded with
        | some img_data =>
          { effects := [.fileWrite output img_data,
              .printMsg ("Saved to " ++ output)],
            error := none }
        | none => { effects := [], error := some "binascii.Error" }
      | _ =>
        { effects := [.printMsg "No image in response", .printData data],
          error := none }
  else
    { effects := [.printMsg ("Error: " ++ toString resp.status_code),
        .printMsg resp.text],
      error := none }

/-- The whole module body of `generate_v2.py`, as a function of the
`GEMINI_API_KEY` environment variable, `sys.argv`, and the HTTP response
the vendor returns to the single `requests.post`. -/
def runB (geminiKey : Option String) (argv : List String)
    (resp : HttpResponse) : Outcome :=
  let prompt := promptOfB argv
  let output := outputOfB argv
  let h := handleB output resp
  { effects := .post (urlB geminiKey) headersB (payloadB prompt) :: h.effects,
    error := h.error }

/-! ### Derived predicates used by the claims -/

/-- A part carries inline binary image data. -/
def partHasInline (p : Part) : Bool := p.inline_data.isSome

/-- Some candidate of the response carries a part with inline data. -/
def hasInlineAnywhere (r : Response) : Bool :=
  r.candidates.any fun c => c.content.parts.any partHasInline

/-- The parts list of the first candidate (empty when no candidate). -/
def firstParts (r : Response) : List Part :=
  match r.candidates with
  | [] => []
  | c :: _ => c.content.parts

/-- Component B: the decoded response contains an image payload, i.e. the
status is 200, the body parses, and `predictions` is present and
non-empty. -/
def payloadPresentB (resp : HttpResponse) : Bool :=
  resp.status_code = 200 &&
    (match resp.jsonParse with
     | some data =>
       (match data.predictions with
        | some (_ :: _) => true
        | _ => false)
     | none => false)

/-! ## Helper lemmas -/

/-- Decoding inverts encoding on every six-bit value. -/
lemma decodeChar_encodeChar_fin :
    ∀ m : Fin 64, decodeChar (encodeChar m.val) = some m.val := by decide

/-- Decoding inverts encoding on every six-bit value (`Nat` form). -/
lemma decodeChar_encodeChar {n : Nat} (h : n < 64) :
    decodeChar (encodeChar n) = some n :=
  decodeChar_encodeChar_fin ⟨n, h⟩

/-- No alphabet character is the padding character. -/
lemma encodeChar_ne_pad_fin : ∀ m : Fin 64, encodeChar m.val ≠ '=' := by decide

/-- No alphabet character is the padding character (`Nat` form). -/
lemma encodeChar_ne_pad {n : Nat} (h : n < 64) : encodeChar n ≠ '=' :=
  encodeChar_ne_pad_fin ⟨n, h⟩

/-- Round trip on character lists: decoding the standard encoding of any
byte sequence recovers it exactly. -/
lemma b64decodeCore_b64encode : ∀ (B : List Nat), (∀ b ∈ B, b < 256) →
    b64decodeCore (b64encode B) = some B
  | [], _ => rfl
  | [b1], h => by
    have h1 : b1 < 256 := h b1 (by simp)
    rw [b64encode, b64decodeCore,
      decodeChar_encodeChar (by omega : b1 / 4 < 64),
      decodeChar_encodeChar (by omega : b1 % 4 * 16 < 64)]
    simp only [Option.some_bind, and_self, if_true, reduceIte,
      Option.some.injEq, List.cons.injEq, and_true]
    omega
  | [b1, b2], h => by
    have h1 : b1 < 256 := h b1 (by simp)
    have h2 : b2 < 256 := h b2 (by simp)
    rw [b64encode, b64decodeCore,
      decodeChar_encodeChar (by omega : b1 / 4 < 64),
      decodeChar_encodeChar (by omega : b1 % 4 * 16 + b2 / 16 < 64)]
    simp only [Option.some_bind]
    rw [if_neg (encodeChar_ne_pad (by omega : b2 % 16 * 4 < 64)),
      decodeChar_encodeChar (by omega : b2 % 16 * 4 < 64)]
    simp only [Option.some_bind, and_self, if_true, reduceIte,
      Option.some.injEq, List.cons.injEq, and_true]
    omega
  | b1 :: b2 :: b3 :: rest, h => by
    have h1 : b1 < 256 := h b1 (by simp)
    have h2 : b2 < 256 := h b2 (by simp)
    have h3 : b3 < 256 := h b3 (by simp)
    have ih := b64decodeCore_b64encode rest fun b hb => h b (by simp [hb])
    rw [b64encode, b64decodeCore,
      decodeChar_encodeChar (by omega : b1 / 4 < 64),
      decodeChar_encodeChar (by omega : b1 % 4 * 16 + b2 / 16 < 64)]
    simp only [Option.some_bind]
    rw [if_neg (encodeChar_ne_pad (by omega : b2 % 16 * 4 + b3 / 64 < 64)),
      decodeChar_encodeChar (by omega : b2 % 16 * 4 + b3 / 64 < 64)]
    simp only [Option.some_bind]
    rw [if_neg (encodeChar_ne_pad (by omega : b3 % 64 < 64)),
      decodeChar_encodeChar (by omega : b3 % 64 < 64)]
    simp only [Option.some_bind]
    rw [ih]
    simp only [Option.some_bind, Option.some.injEq, List.cons.injEq, and_true]
    omega

lemma writeCount_nil : writeCount [] = 0 := rfl

lemma writeCount_cons (e : Effect) (t : List Effect) :
    writeCount (e :: t) = (if isWrite e then 1 else 0) + writeCount t := by
  simp only [writeCount, List.filter_cons]
  split <;> simp [Nat.add_comm]

/-- A scan of the parts list performs at most one file write. -/
lemma scanPartsA_writeCount_le_one (out : String) :
    ∀ ps : List Part, writeCount (scanPartsA out ps) ≤ 1
  | [] => by simp [scanPartsA, writeCount]
  | p :: rest => by
    rw [scanPartsA]
    match hp : p.inline_data with
    | some d => simp [writeCount, isWrite, List.filter]
    | none => exact scanPartsA_writeCount_le_one out rest

/-- A scan of parts none of which carries inline data does nothing. -/
lemma scanPartsA_no_inline (out : String) :
    ∀ ps : List Part, (∀ p ∈ ps, p.inline_data = none) →
      scanPartsA out ps = []
  | [], _ => rfl
  | p :: rest, h => by
    rw [scanPartsA, h p (by simp)]
    exact scanPartsA_no_inline out rest fun q hq => h q (by simp [hq])

/-- The scan takes the first part with inline data: it writes that part's
bytes, prints the confirmation, and stops. -/
lemma scanPartsA_first (out : String) (p : Part) (d : InlineData)
    (hd : p.inline_data = some d) :
    ∀ (pre : List Part), (∀ q ∈ pre, q.inline_data = none) →
      ∀ post : List Part,
        scanPartsA out (pre ++ p :: post) =
          [.fileWrite out d.data, .printMsg ("Saved to " ++ out)]
  | [], _, post => by rw [List.nil_append, scanPartsA, hd]
  | q :: rest, hpre, post => by
    rw [List.cons_append, scanPartsA, hpre q (by simp)]
    exact scanPartsA_first out p d hd rest
      (fun x hx => hpre x (by simp [hx])) post

/-- If no part of the response carries inline data, the first candidate's
parts all lack it. -/
lemma firstParts_no_inline {r : Response} (h : hasInlineAnywhere r = false) :
    ∀ p ∈ firstParts r, p.inline_data = none := by
  intro p hp
  rcases hr : r.candidates with _ | ⟨c, cs⟩
  · rw [firstParts, hr] at hp
    simp at hp
  · rw [firstParts, hr] at hp
    rw [hasInlineAnywhere, hr] at h
    simp only [List.any_cons, Bool.or_eq_false_iff, List.any_eq_false] at h
    have hb := h.1 p hp
    rcases hpd : p.inline_data with _ | d
    · rfl
    · exact absurd (by simp [partHasInline, hpd]) hb

/-- Character-by-character description of `handleB` on a non-200 status. -/
lemma handleB_non200 (out : String) (resp : HttpResponse)
    (h : resp.status_code ≠ 200) :
    handleB out resp =
      { effects := [.printMsg ("Error: " ++ toString resp.status_code),
          .printMsg resp.text],
        error := none } := by
  rw [handleB, if_neg h]

/-- `handleB` on a 200 status whose body parses to an empty or absent
`predictions` list. -/
lemma handleB_200_no_predictions (out : String) (resp : HttpResponse)
    (data : RespData) (h200 : resp.status_code = 200)
    (hparse : resp.jsonParse = some data)
    (hpred : data.predictions = none ∨ data.predictions = some []) :
    handleB out resp =
      { effects := [.printMsg "No image in response", .printData data],
        error := none } := by
  rcases hpred with hp | hp <;> simp [handleB, h200, hparse, hp]

/-- `handleB` on a 200 status with a non-empty `predictions` list whose
first entry decodes. -/
lemma handleB_200_first_prediction (out : String) (resp : HttpResponse)
    (data : RespData) (p : Prediction) (ps : List Prediction)
    (bytes : List Nat) (h200 : resp.status_code = 200)
    (hparse : resp.jsonParse = some data)
    (hpred : data.predictions = some (p :: ps))
    (hdec : b64decode p.bytesBase64Encoded = some bytes) :
    handleB out resp =
      { effects := [.fileWrite out bytes, .printMsg ("Saved to " ++ out)],
        error := none } := by
  simp [handleB, h200, hparse, hpred, hdec]

/-- `handleB` performs at most one file write. -/
lemma handleB_writeCount_le_one (out : String) (resp : HttpResponse) :
    writeCount (handleB out resp).effects ≤ 1 := by
  obtain ⟨sc, jp, tx⟩ := resp
  by_cases h : sc = 200
  · subst h
    rcases jp with _ | ⟨preds⟩
    · simp [handleB, writeCount]
    · rcases preds with _ | (_ | ⟨p, ps⟩)
      · simp [handleB, writeCount, isWrite, List.filter]
      · simp [handleB, writeCount, isWrite, List.filter]
      · rcases hdec : b64decode p.bytesBase64Encoded with _ | bytes
        · simp [handleB, hdec, writeCount]
        · simp [handleB, hdec, writeCount, isWrite, List.filter]
  · simp [handleB, h, writeCount, isWrite, List.filter]

/-- `handleB` never issues a further HTTP request (no retry). -/
lemma handleB_postCount_zero (out : String) (resp : HttpResponse) :
    postCount (handleB out resp).effects = 0 := by
  obtain ⟨sc, jp, tx⟩ := resp
  by_cases h : sc = 200
  · subst h
    rcases jp with _ | ⟨preds⟩
    · simp [handleB, postCount]
    · rcases preds with _ | (_ | ⟨p, ps⟩)
      · simp [handleB, postCount, isPost, List.filter]
      · simp [handleB, postCount, isPost, List.filter]
      · rcases hdec : b64decode p.bytesBase64Encoded with _ | bytes
        · simp [handleB, hdec, postCount]
        · simp [handleB, hdec, postCount, isPost, List.filter]
  · simp [handleB, h, postCount, isPost, List.filter]

/-- When no image payload is present, `handleB` writes nothing, and — when
it does not raise — it prints a diagnostic. -/
lemma handleB_no_payload (out : String) (resp : HttpResponse)
    (h : payloadPresentB resp = false) :
    writeCount (handleB out resp).effects = 0 ∧
      ((handleB out resp).error = none →
        (handleB out resp).effects.filter isPrint ≠ []) := by
  obtain ⟨sc, jp, tx⟩ := resp
  by_cases h200 : sc = 200
  · subst h200
    rcases jp with _ | ⟨preds⟩
    · simp [handleB, writeCount]
    · rcases preds with _ | (_ | ⟨p, ps⟩)
      · simp [handleB, writeCount, isWrite, isPrint, List.filter]
      · simp [handleB, writeCount, isWrite, isPrint, List.filter]
      · simp [payloadPresentB] at h
  · simp [handleB, h200, writeCount, isWrite, isPrint, List.filter]

/-- The write count of a Component A run is that of its save step. -/
lemma runA_writeCount (gk gmk : Option String) (argv : List String)
    (r : Response) :
    writeCount (runA gk gmk argv r).effects =
      writeCount (saveA (outputOfA argv) r) := by
  simp [runA, writeCount, List.filter, isWrite]

/-- The printed effects of a Component A run are those of its save step. -/
lemma runA_printFilter (gk gmk : Option String) (argv : List String)
    (r : Response) :
    (runA gk gmk argv r).effects.filter isPrint =
      (saveA (outputOfA argv) r).filter isPrint := by
  simp [runA, List.filter, isPrint]

/-- The write count of a Component B run is that of its response handler. -/
lemma runB_writeCount (key : Option String) (argv : List String)
    (resp : HttpResponse) :
    writeCount (runB key argv resp).effects =
      writeCount (handleB (outputOfB argv) resp).effects := by
  simp [runB, writeCount, List.filter, isWrite]

/-- A Component B run posts once, plus whatever the handler posts. -/
lemma runB_postCount (key : Option String) (argv : List String)
    (resp : HttpResponse) :
    postCount (runB key argv resp).effects =
      1 + postCount (handleB (outputOfB argv) resp).effects := by
  simp [runB, postCount, List.filter, isPost, Nat.add_comm]

/-- The printed effects of a Component B run are those of its handler. -/
lemma runB_printFilter (key : Option String) (argv : List String)
    (resp : HttpResponse) :
    (runB key argv resp).effects.filter isPrint =
      (handleB (outputOfB argv) resp).effects.filter isPrint := by
  simp [runB, List.filter, isPrint]

/-- A Component B run raises exactly when its handler does. -/
lemma runB_error (key : Option String) (argv : List String)
    (resp : HttpResponse) :
    (runB key argv resp).error = (handleB (outputOfB argv) resp).error := rfl

/-- Behaviour of the save step when the response holds no inline data
anywhere: the diagnostic is printed exactly when the candidate list or the
first candidate's parts list is empty; otherwise nothing happens at all. -/
lemma saveA_no_inline (out : String) (r : Response)
    (h : hasInlineAnywhere r = false) :
    (firstParts r = [] →
      saveA out r = [.printMsg "No image generated", .printResp r]) ∧
    (firstParts r ≠ [] → saveA out r = []) := by
  have hfp := firstParts_no_inline h
  rcases hr : r.candidates with _ | ⟨c, cs⟩
  · have hfirst : firstParts r = [] := by simp [firstParts, hr]
    exact ⟨fun _ => by simp [saveA, hr], fun hne => absurd hfirst hne⟩
  · have hfirst : firstParts r = c.content.parts := by simp [firstParts, hr]
    by_cases hparts : c.content.parts = []
    · refine ⟨fun _ => by simp [saveA, hr, hparts], fun hne => ?_⟩
      exact absurd (hfirst.trans hparts) hne
    · refine ⟨fun heq => absurd (hfirst.symm.trans heq) hparts, fun _ => ?_⟩
      have : saveA out r = scanPartsA out c.content.parts := by
        simp [saveA, hr, hparts]
      rw [this, scanPartsA_no_inline out c.content.parts
        (fun p hp => hfp p (by rw [hfirst]; exact hp))]

/-- The save step performs at most one file write. -/
lemma saveA_writeCount_le_one (out : String) (r : Response) :
    writeCount (saveA out r) ≤ 1 := by
  rcases hr : r.candidates with _ | ⟨c, cs⟩
  · simp [saveA, hr, writeCount, isWrite, List.filter]
  · by_cases hp : c.content.parts = []
    · simp [saveA, hr, hp, writeCount, isWrite, List.filter]
    · simpa [saveA, hr, hp] using
        scanPartsA_writeCount_le_one out c.content.parts

/-! ## Concrete fixtures used by witnesses and counterexamples -/

/-- A part carrying no inline data (e.g. a text part). -/
def textPart : Part := { inline_data := none }

/-- A part carrying inline image bytes `[1, 2, 3]`. -/
def imgPart : Part := { inline_data := some { data := [1, 2, 3] } }

/-- A response whose only inline-data part sits in the *second* candidate;
the first candidate has a (non-empty) parts list without inline data. -/
def respInlineLater : Response :=
  { candidates :=
      [{ content := { parts := [textPart] } },
       { content := { parts := [imgPart] } }] }

/-- A response with one candidate whose single part has no inline data. -/
def respSilentOne : Response :=
  { candidates := [{ content := { parts := [textPart] } }] }

/-- A response with one candidate and two parts, none with inline data. -/
def respSilentTwo : Response :=
  { candidates := [{ content := { parts := [textPart, textPart] } }] }

/-- The spec's concrete Component B success scenario: status 200 with one
prediction carrying the base64 text of the PNG signature. -/
def respFox : HttpResponse :=
  { status_code := 200,
    jsonParse := some
      { predictions := some [{ bytesBase64Encoded := "iVBORw0KGgo=" }] },
    text := "" }

/-- The spec's rate-limit scenario: status 429 with an error body. -/
def respRate : HttpResponse :=
  { status_code := 429,
    jsonParse := none,
    text := "\x7b\x22error\x22:\x22rate limited\x22\x7d" }

/-- A 200 response whose parsed body has no `predictions` key. -/
def respNoPred : HttpResponse :=
  { status_code := 200,
    jsonParse := some { predictions := none },
    text := "\x7b\x7d" }

/-! ## Claims -/

/-- C1, counterexample: the claim says the scan covers all candidates, but
`generate.py` only iterates over `response.candidates[0].content.parts`.
On a response whose only inline-data part lies in the second candidate, the
claimed single file write does not happen: the run writes nothing (and
prints nothing). -/
theorem runA_misses_inline_in_second_candidate :
    hasInlineAnywhere respInlineLater = true ∧
    writeCount (runA none (some "k") ["generate.py"] respInlineLater).effects
      = 0 ∧
    (runA none (some "k") ["generate.py"] respInlineLater).effects.filter
      isPrint = [] := by
  decide

/-- C1 (amended): for every vendor response whose **first candidate**
contains at least one inline-data part, the program scans that candidate's
parts in order, writes the raw bytes of the first inline-data part
verbatim to outputPath, performs exactly one file write, and stops
scanning. -/
theorem runA_writes_first_inline_of_first_candidate
    (googleKey geminiKey : Option String) (argv : List String) (r : Response)
    (c : Candidate) (cs : List Candidate) (pre post : List Part) (p : Part)
    (d : InlineData)
    (hc : r.candidates = c :: cs)
    (hp : c.content.parts = pre ++ p :: post)
    (hpre : ∀ q ∈ pre, q.inline_data = none)
    (hd : p.inline_data = some d) :
    (runA googleKey geminiKey argv r).effects =
      [.configure (pyOr googleKey geminiKey),
       .genCall (promptOfA argv) "image/png",
       .fileWrite (outputOfA argv) d.data,
       .printMsg ("Saved to " ++ outputOfA argv)] ∧
    writeCount (runA googleKey geminiKey argv r).effects = 1 := by
  have hnil : c.content.parts ≠ [] := by simp [hp]
  have hsave : saveA (outputOfA argv) r =
      [.fileWrite (outputOfA argv) d.data,
       .printMsg ("Saved to " ++ outputOfA argv)] := by
    have : saveA (outputOfA argv) r =
        scanPartsA (outputOfA argv) c.content.parts := by
      simp [saveA, hc, hnil]
    rw [this, hp, scanPartsA_first (outputOfA argv) p d hd pre hpre post]
  constructor
  · simp [runA, hsave]
  · rw [runA_writeCount, hsave]
    simp [writeCount, isWrite, List.filter]

/-- C1, witness: a concrete response whose first candidate holds a text
part followed by an inline-data part. -/
theorem runA_writes_first_inline_of_first_candidate_witness :
    (runA none (some "k") ["generate.py"]
      { candidates := [{ content := { parts := [textPart, imgPart] } }] }
      ).effects =
      [.configure (pyOr none (some "k")),
       .genCall (promptOfA ["generate.py"]) "image/png",
       .fileWrite (outputOfA ["generate.py"]) [1, 2, 3],
       .printMsg ("Saved to " ++ outputOfA ["generate.py"])] ∧
    writeCount (runA none (some "k") ["generate.py"]
      { candidates := [{ content := { parts := [textPart, imgPart] } }] }
      ).effects = 1 :=
  runA_writes_first_inline_of_first_candidate none (some "k") ["generate.py"]
    _ _ [] [textPart] [] imgPart { data := [1, 2, 3] }
    rfl rfl (by decide) rfl

/-- C2: on HTTP 200 with a parsed body holding a non-empty `predictions`
list whose first entry's base64 field decodes, `generate_v2.py` writes
exactly the decoded bytes of the first prediction to outputPath, performs
exactly one file write, prints the path confirmation, and raises nothing. -/
theorem runB_200_writes_decoded_first_prediction
    (key : Option String) (argv : List String) (resp : HttpResponse)
    (data : RespData) (p : Prediction) (ps : List Prediction)
    (bytes : List Nat)
    (h200 : resp.status_code = 200)
    (hparse : resp.jsonParse = some data)
    (hpred : data.predictions = some (p :: ps))
    (hdec : b64decode p.bytesBase64Encoded = some bytes) :
    (runB key argv resp).effects =
      [.post (urlB key) headersB (payloadB (promptOfB argv)),
       .fileWrite (outputOfB argv) bytes,
       .printMsg ("Saved to " ++ outputOfB argv)] ∧
    writeCount (runB key argv resp).effects = 1 ∧
    (runB key argv resp).error = none := by
  have hh := handleB_200_first_prediction (outputOfB argv) resp data p ps
    bytes h200 hparse hpred hdec
  refine ⟨?_, ?_, ?_⟩
  · simp [runB, hh]
  · rw [runB_writeCount, hh]
    simp [writeCount, isWrite, List.filter]
  · rw [runB_error, hh]

/-- C2, witness: the spec's "red fox logo" scenario; `"iVBORw0KGgo="`
decodes to the eight PNG-signature bytes. -/
theorem runB_200_writes_decoded_first_prediction_witness :
    (runB (some "k") ["generate_v2.py", "red fox logo"] respFox).effects =
      [.post (urlB (some "k")) headersB (payloadB "red fox logo"),
       .fileWrite "output.png" [137, 80, 78, 71, 13, 10, 26, 10],
       .printMsg "Saved to output.png"] ∧
    writeCount
      ((runB (some "k") ["generate_v2.py", "red fox logo"] respFox).effects)
      = 1 ∧
    (runB (some "k") ["generate_v2.py", "red fox logo"] respFox).error
      = none :=
  runB_200_writes_decoded_first_prediction (some "k")
    ["generate_v2.py", "red fox logo"] respFox _ _ []
    [137, 80, 78, 71, 13, 10, 26, 10] rfl rfl rfl (by decide)

/-- C3, counterexample: the claim says every zero-payload response gets the
"no image generated" report, but when the first candidate's parts list is
non-empty and simply lacks inline data, `generate.py` falls through the
loop and prints nothing at all. -/
theorem runA_silent_when_first_candidate_has_no_inline :
    hasInlineAnywhere respSilentOne = false ∧
    Effect.printMsg "No image generated" ∉
      (runA none (some "k") ["generate.py"] respSilentOne).effects ∧
    (runA none (some "k") ["generate.py"] respSilentOne).effects.filter
      isPrint = [] := by
  decide

/-- C3 (amended): on a response with no inline-data part anywhere, the
program writes no file; it reports "No image generated" and echoes the raw
response exactly when the candidate list is empty or the first candidate's
parts list is empty, and otherwise terminates silently.  Both branches
terminate normally. -/
theorem runA_no_inline_diagnostic_cases
    (googleKey geminiKey : Option String) (argv : List String) (r : Response)
    (h : hasInlineAnywhere r = false) :
    writeCount (runA googleKey geminiKey argv r).effects = 0 ∧
    (firstParts r = [] →
      (runA googleKey geminiKey argv r).effects =
        [.configure (pyOr googleKey geminiKey),
         .genCall (promptOfA argv) "image/png",
         .printMsg "No image generated", .printResp r]) ∧
    (firstParts r ≠ [] →
      (runA googleKey geminiKey argv r).effects =
        [.configure (pyOr googleKey geminiKey),
         .genCall (promptOfA argv) "image/png"]) ∧
    (runA googleKey geminiKey argv r).error = none := by
  have hs := saveA_no_inline (outputOfA argv) r h
  refine ⟨?_, fun heq => ?_, fun hne => ?_, rfl⟩
  · rw [runA_writeCount]
    by_cases hfp : firstParts r = []
    · rw [hs.1 hfp]
      simp [writeCount, isWrite, List.filter]
    · rw [hs.2 hfp]
      rfl
  · simp [runA, hs.1 heq]
  · simp [runA, hs.2 hne]

/-- C3, witness: an empty candidate list produces the diagnostic pair and
no write. -/
theorem runA_no_inline_diagnostic_cases_witness :
    writeCount (runA none none ["generate.py"]
      { candidates := [] }).effects = 0 ∧
    (runA none none ["generate.py"] { candidates := [] }).effects =
      [.configure (pyOr none none),
       .genCall (promptOfA ["generate.py"]) "image/png",
       .printMsg "No image generated", .printResp { candidates := [] }] := by
  have h := runA_no_inline_diagnostic_cases none none ["generate.py"]
    { candidates := [] } (by decide)
  exact ⟨h.1, h.2.1 rfl⟩

/-- C4: on any non-200 status, `generate_v2.py` writes no file, prints the
literal status code and the raw response text, raises nothing, and issues
no further request (no retry). -/
theorem runB_non200_no_write_and_diagnostic
    (key : Option String) (argv : List String) (resp : HttpResponse)
    (h : resp.status_code ≠ 200) :
    (runB key argv resp).effects =
      [.post (urlB key) headersB (payloadB (promptOfB argv)),
       .printMsg ("Error: " ++ toString resp.status_code),
       .printMsg resp.text] ∧
    writeCount (runB key argv resp).effects = 0 ∧
    postCount (runB key argv resp).effects = 1 ∧
    (runB key argv resp).error = none := by
  have hh := handleB_non200 (outputOfB argv) resp h
  refine ⟨?_, ?_, ?_, ?_⟩
  · simp [runB, hh]
  · rw [runB_writeCount, hh]
    simp [writeCount, isWrite, List.filter]
  · rw [runB_postCount, hh]
    simp [postCount, isPost, List.filter]
  · rw [runB_error, hh]

/-- C4, witness: the spec's 429 rate-limit scenario. -/
theorem runB_non200_no_write_and_diagnostic_witness :
    (runB (some "k") ["generate_v2.py"] respRate).effects =
      [.post (urlB (some "k")) headersB
        (payloadB (promptOfB ["generate_v2.py"])),
       .printMsg "Error: 429",
       .printMsg "\x7b\x22error\x22:\x22rate limited\x22\x7d"] ∧
    writeCount (runB (some "k") ["generate_v2.py"] respRate).effects = 0 ∧
    postCount (runB (some "k") ["generate_v2.py"] respRate).effects = 1 ∧
    (runB (some "k") ["generate_v2.py"] respRate).error = none :=
  runB_non200_no_write_and_diagnostic (some "k") ["generate_v2.py"] respRate
    (by decide)

/-- C5: on HTTP 200 whose parsed body has `predictions` absent or empty,
`generate_v2.py` writes no file, prints "No image in response", echoes the
parsed body, and terminates normally (raises nothing). -/
theorem runB_200_empty_predictions_diagnostic
    (key : Option String) (argv : List String) (resp : HttpResponse)
    (data : RespData)
    (h200 : resp.status_code = 200)
    (hparse : resp.jsonParse = some data)
    (hpred : data.predictions = none ∨ data.predictions = some []) :
    (runB key argv resp).effects =
      [.post (urlB key) headersB (payloadB (promptOfB argv)),
       .printMsg "No image in response",
       .printData data] ∧
    writeCount (runB key argv resp).effects = 0 ∧
    (runB key argv resp).error = none := by
  have hh := handleB_200_no_predictions (outputOfB argv) resp data h200
    hparse hpred
  refine ⟨?_, ?_, ?_⟩
  · simp [runB, hh]
  · rw [runB_writeCount, hh]
    simp [writeCount, isWrite, List.filter]
  · rw [runB_error, hh]

/-- C5, witness: a 200 response whose body has no `predictions` key. -/
theorem runB_200_empty_predictions_diagnostic_witness :
    (runB (some "k") ["generate_v2.py"] respNoPred).effects =
      [.post (urlB (some "k")) headersB
        (payloadB (promptOfB ["generate_v2.py"])),
       .printMsg "No image in response",
       .printData { predictions := none }] ∧
    writeCount (runB (some "k") ["generate_v2.py"] respNoPred).effects = 0 ∧
    (runB (some "k") ["generate_v2.py"] respNoPred).error = none :=
  runB_200_empty_predictions_diagnostic (some "k") ["generate_v2.py"]
    respNoPred { predictions := none } rfl rfl (Or.inl rfl)

/-- C6, counterexample: the claim's "on absence a diagnostic is emitted"
clause fails for Component A: a response whose first candidate has a
non-empty parts list with no inline data yields no write *and no printed
diagnostic of any kind*. -/
theorem write_invariant_diagnostic_missing :
    hasInlineAnywhere respSilentTwo = false ∧
    writeCount (runA none none ["generate.py"] respSilentTwo).effects = 0 ∧
    (runA none none ["generate.py"] respSilentTwo).effects.filter isPrint
      = [] := by
  decide

/-- C6 (amended): for either component and every vendor response, the
output file is written at most once and only when an image payload is
present in the decoded response; when no payload is present no file is
written, and a diagnostic is emitted — except that Component A exits
silently when the first candidate's parts list is non-empty but carries no
inline data, and except when Component B raises on an unparseable 200
body. -/
theorem write_at_most_once_only_with_payload
    (googleKey geminiKey key : Option String) (argvA argvB : List String)
    (r : Response) (resp : HttpResponse) :
    writeCount (runA googleKey geminiKey argvA r).effects ≤ 1 ∧
    (hasInlineAnywhere r = false →
      writeCount (runA googleKey geminiKey argvA r).effects = 0 ∧
      (firstParts r = [] →
        (runA googleKey geminiKey argvA r).effects.filter isPrint ≠ [])) ∧
    writeCount (runB key argvB resp).effects ≤ 1 ∧
    (payloadPresentB resp = false →
      writeCount (runB key argvB resp).effects = 0 ∧
      ((runB key argvB resp).error = none →
        (runB key argvB resp).effects.filter isPrint ≠ [])) := by
  refine ⟨?_, fun h => ⟨?_, fun hfp => ?_⟩, ?_, fun h => ⟨?_, fun herr => ?_⟩⟩
  · rw [runA_writeCount]
    exact saveA_writeCount_le_one (outputOfA argvA) r
  · rw [runA_writeCount]
    by_cases hfp : firstParts r = []
    · rw [(saveA_no_inline (outputOfA argvA) r h).1 hfp]
      simp [writeCount, isWrite, List.filter]
    · rw [(saveA_no_inline (outputOfA argvA) r h).2 hfp]
      rfl
  · rw [runA_printFilter, (saveA_no_inline (outputOfA argvA) r h).1 hfp]
    simp [List.filter, isPrint]
  · rw [runB_writeCount]
    exact handleB_writeCount_le_one (outputOfB argvB) resp
  · rw [runB_writeCount]
    exact (handleB_no_payload (outputOfB argvB) resp h).1
  · rw [runB_printFilter]
    exact (handleB_no_payload (outputOfB argvB) resp h).2
      (by rw [← runB_error key argvB resp]; exact herr)

/-- C6, witness: an empty SDK response and a 404 HTTP response. -/
theorem write_at_most_once_only_with_payload_witness :
    writeCount (runA none none ["generate.py"]
      { candidates := [] }).effects ≤ 1 ∧
    writeCount (runA none none ["generate.py"]
      { candidates := [] }).effects = 0 ∧
    (runA none none ["generate.py"]
      { candidates := [] }).effects.filter isPrint ≠ [] ∧
    writeCount (runB none ["generate_v2.py"]
      { status_code := 404, jsonParse := none, text := "not found" }
      ).effects = 0 := by
  have h := write_at_most_once_only_with_payload none none none
    ["generate.py"] ["generate_v2.py"] { candidates := [] }
    { status_code := 404, jsonParse := none, text := "not found" }
  have hA := h.2.1 (by decide)
  have hB := h.2.2.2 (by decide)
  exact ⟨h.1, hA.1, hA.2 rfl, hB.1⟩

/-- C7: neither component checks the credential before issuing its
request: Component B posts first in every run even with the environment
variable unset (the missing key is interpolated into the URL as the text
"None"), and issues exactly one request; Component A configures the SDK
with whatever optional key the environment yields and issues the generate
call regardless.  An invalid credential can therefore only surface through
the transport: for Component B a non-200 answer, on which no file is
written and the run ends with the printed diagnostic. -/
theorem credential_unchecked_surfaced_by_transport
    (googleKey geminiKey : Option String) (argvA argvB : List String)
    (r : Response) (resp : HttpResponse) :
    (runB none argvB resp).effects.head? =
      some (.post (urlB none) headersB (payloadB (promptOfB argvB))) ∧
    urlB none =
      "https://generativelanguage.googleapis.com/v1beta/models/" ++
        "imagen-4.0-generate-001:predict?key=" ++ "None" ∧
    postCount (runB none argvB resp).effects = 1 ∧
    (runA googleKey geminiKey argvA r).effects.take 2 =
      [.configure (pyOr googleKey geminiKey),
       .genCall (promptOfA argvA) "image/png"] ∧
    (resp.status_code ≠ 200 →
      writeCount (runB none argvB resp).effects = 0 ∧
      (runB none argvB resp).error = none) := by
  refine ⟨rfl, rfl, ?_, rfl, fun h => ⟨?_, ?_⟩⟩
  · rw [runB_postCount, handleB_postCount_zero]
  · rw [runB_writeCount, handleB_non200 (outputOfB argvB) resp h]
    simp [writeCount, isWrite, List.filter]
  · rw [runB_error, handleB_non200 (outputOfB argvB) resp h]

/-- C7, witness: an unset key and a 403 vendor answer. -/
theorem credential_unchecked_surfaced_by_transport_witness :
    (runB none ["generate_v2.py"]
      { status_code := 403, jsonParse := none, text := "forbidden" }
      ).effects.head? =
      some (.post (urlB none) headersB
        (payloadB (promptOfB ["generate_v2.py"]))) ∧
    urlB none =
      "https://generativelanguage.googleapis.com/v1beta/models/" ++
        "imagen-4.0-generate-001:predict?key=" ++ "None" ∧
    writeCount (runB none ["generate_v2.py"]
      { status_code := 403, jsonParse := none, text := "forbidden" }
      ).effects = 0 := by
  have h := credential_unchecked_surfaced_by_transport none none
    ["generate.py"] ["generate_v2.py"] { candidates := [] }
    { status_code := 403, jsonParse := none, text := "forbidden" }
  exact ⟨h.1, h.2.1, (h.2.2.2.2 (by decide)).1⟩

/-- C8: for every prompt, Component B's one request is a POST to the fixed
prediction endpoint with the credential as the `key` query parameter and
the JSON content-type header, and its body is exactly the fixed payload
with a single-element instances list carrying the prompt verbatim. -/
theorem runB_request_post_shape (k : String) (argv : List String)
    (resp : HttpResponse) :
    (runB (some k) argv resp).effects.head? =
      some (.post
        ("https://generativelanguage.googleapis.com/v1beta/models/" ++
          "imagen-4.0-generate-001:predict?key=" ++ k)
        [("Content-Type", "application/json")]
        { instances := [{ prompt := promptOfB argv }],
          parameters :=
            { sampleCount := 1,
              aspectRatio := "1:1",
              outputOptions := { mimeType := "image/png" } } }) ∧
    (payloadB (promptOfB argv)).instances = [{ prompt := promptOfB argv }] ∧
    (payloadB (promptOfB argv)).instances.length = 1 ∧
    postCount (runB (some k) argv resp).effects = 1 := by
  refine ⟨rfl, rfl, rfl, ?_⟩
  rw [runB_postCount, handleB_postCount_zero]

/-- C8, witness: concrete key, prompt and response. -/
theorem runB_request_post_shape_witness :
    (runB (some "secret") ["generate_v2.py", "red fox logo"] respRate
      ).effects.head? =
      some (.post
        ("https://generativelanguage.googleapis.com/v1beta/models/" ++
          "imagen-4.0-generate-001:predict?key=" ++ "secret")
        [("Content-Type", "application/json")]
        { instances := [{ prompt := promptOfB ["generate_v2.py",
            "red fox logo"] }],
          parameters :=
            { sampleCount := 1,
              aspectRatio := "1:1",
              outputOptions := { mimeType := "image/png" } } }) ∧
    postCount (runB (some "secret") ["generate_v2.py", "red fox logo"]
      respRate).effects = 1 := by
  have h := runB_request_post_shape "secret" ["generate_v2.py",
    "red fox logo"] respRate
  exact ⟨h.1, h.2.2.2⟩

/-- C9: with zero positional arguments both components default the prompt
to "Cute mascot character" and the output path to "output.png"; a supplied
first or second positional argument is used verbatim as the prompt or the
output path. -/
theorem defaults_and_verbatim_args :
    (∀ prog : String,
      promptOfA [prog] = "Cute mascot character" ∧
      outputOfA [prog] = "output.png" ∧
      promptOfB [prog] = "Cute mascot character" ∧
      outputOfB [prog] = "output.png") ∧
    (∀ (prog p : String) (rest : List String),
      promptOfA (prog :: p :: rest) = p ∧
      promptOfB (prog :: p :: rest) = p) ∧
    (∀ (prog p o : String) (rest : List String),
      outputOfA (prog :: p :: o :: rest) = o ∧
      outputOfB (prog :: p :: o :: rest) = o) :=
  ⟨fun _ => ⟨rfl, rfl, rfl, rfl⟩,
   fun _ _ _ => ⟨rfl, rfl⟩,
   fun _ _ _ _ => ⟨rfl, rfl⟩⟩

/-- C9, witness: concrete invocations of both components. -/
theorem defaults_and_verbatim_args_witness :
    promptOfA ["generate.py"] = "Cute mascot character" ∧
    outputOfB ["generate_v2.py"] = "output.png" ∧
    promptOfB ["generate_v2.py", "red fox logo"] = "red fox logo" ∧
    outputOfA ["generate.py", "p", "mascot.png"] = "mascot.png" :=
  ⟨(defaults_and_verbatim_args.1 "generate.py").1,
   (defaults_and_verbatim_args.1 "generate_v2.py").2.2.2,
   (defaults_and_verbatim_args.2.1 "generate_v2.py" "red fox logo" []).2,
   (defaults_and_verbatim_args.2.2 "generate.py" "p" "mascot.png" []).1⟩

/-- C10: encoding any byte sequence to base64 and decoding the result with
the decode step used on `bytesBase64Encoded` yields exactly the original
bytes. -/
theorem base64_roundtrip (B : List Nat) (h : ∀ b ∈ B, b < 256) :
    b64decode (String.mk (b64encode B)) = some B :=
  b64decodeCore_b64encode B h

/-- C10, witness: round trip on the PNG signature bytes. -/
theorem base64_roundtrip_witness :
    b64decode (String.mk (b64encode [137, 80, 78, 71, 13, 10, 26, 10])) =
      some [137, 80, 78, 71, 13, 10, 26, 10] :=
  base64_roundtrip [137, 80, 78, 71, 13, 10, 26, 10] (by decide)

end Lifelog
